import Mathlib

/-!
Verification development for the IRT analysis platform core
(`src/r_service/plumber.R` and its near-duplicate standalone implementation
`src/r_scripts/irt_analysis.R`).

The development shallowly embeds the model-fitting orchestration:
data validation and cleaning, the 3PL-to-2PL fallback decision, the
per-dataset model cache, parameter extraction and sanitization, and the
derived-curve endpoints.  Numeric values are modelled as rationals; R's
`NA` is modelled as `Option.none`.  The maximum-likelihood estimation
engine (`mirt`) is an external collaborator and is modelled as an opaque
record of capabilities (`MirtEngine`); everything the repository's own
code does with the engine's answers is translated from the source.
-/

namespace IRT

/-- A cell of a response matrix: `none` models R's `NA`. -/
abbrev Cell := Option ℚ

/-- A response matrix, rows of cells (as produced by `read.csv` + `as.matrix`). -/
abbrev RMatrix := List (List Cell)

/-- The two model types the fitter can return: `Rich` is the 3PL model,
`Simple` the 2PL fallback. -/
inductive ModelType
| Rich
| Simple
deriving DecidableEq

/-- One item's fitted coefficients as reported by
`coef(model, simplify = TRUE, IRTpars = TRUE)$items`:
discrimination `a`, difficulty `b`, guessing `g` (0 for 2PL rows). -/
structure ItemCoefs where
  a : ℚ
  b : ℚ
  g : ℚ
deriving DecidableEq

/-- The opaque fitted-model handle produced by the estimation engine: the
convergence flag (`model@OptimInfo$converged`) and the per-item coefficient
table. -/
structure FittedModel where
  converged : Bool
  items : List ItemCoefs
deriving DecidableEq

/-- An error raised by the estimation engine. -/
inductive EstErr
| estimationError (msg : String)
deriving DecidableEq

/-- A row of a raw coefficient table fed to `extract_item_params`:
`none` models a missing column or an `NA` entry. -/
structure CoefRow where
  a : Option ℚ
  b : Option ℚ
  g : Option ℚ
deriving DecidableEq

/-- A row of a standard-error table (`params_se_table`); `none` models a
missing column or an `NA` entry. -/
structure SERow where
  a : Option ℚ
  b : Option ℚ
  g : Option ℚ
deriving DecidableEq

/-- The external `mirt` estimation engine, modelled as a black box
(spec section 6): 3PL and 2PL fits for a given cleaned matrix, the
standard-error table of a fitted model (`none` models an extraction
failure), and pointwise curve evaluation.  `iifFails mo i` models
`extract.item`/`iteminfo` throwing for item `i` of model `mo`;
`testinfoOk` models whether `testinfo` succeeds. -/
structure MirtEngine where
  fit3PL : RMatrix → Option FittedModel
  fit2PL : RMatrix → Except EstErr FittedModel
  seTable : FittedModel → ModelType → Option (List SERow)
  probVal : FittedModel → Nat → ℚ → ℚ
  iifFails : FittedModel → Nat → Bool
  iifVal : FittedModel → Nat → ℚ → ℚ
  testinfoOk : FittedModel → Bool
  testinfoVal : FittedModel → ℚ → ℚ

/-- Round-half-to-even on the integers, the rounding mode of R's `round`. -/
def rndHalfEven (x : ℚ) : ℤ :=
  let f := ⌊x⌋
  let r := x - f
  if r < 1/2 then f
  else if 1/2 < r then f + 1
  else if f % 2 = 0 then f else f + 1

/-- Rounding to d decimal places, mirroring R's `round(x, d)`. -/
def roundTo (d : Nat) (x : ℚ) : ℚ :=
  (rndHalfEven (x * (10:ℚ)^d) : ℚ) / (10:ℚ)^d

/-- The fixed ability grid `seq(-4, 4, length.out = 101)` shared by every
curve computation. -/
def thetaGrid : List ℚ :=
  (List.range 101).map (fun k : ℕ => -4 + 8 * (k : ℚ) / 100)

/-- The plausibility test of `fit_irt_model` on the 3PL coefficients, a
direct translation of
`any(a > 10 | a < 0.01 | b > 10 | b < -10 | g > 0.5 | g < 0)`. -/
def extremeParams (items : List ItemCoefs) : Bool :=
  decide (∃ p ∈ items,
    10 < p.a ∨ p.a < 1/100 ∨ 10 < p.b ∨ p.b < -10 ∨ 1/2 < p.g ∨ p.g < 0)

/-- The 2PL fallback arm of `fit_irt_model`: the `mirt(..., itemtype = "2PL")`
call is not wrapped in a `tryCatch`, so an engine error propagates. -/
def fit2PLFallback (e : MirtEngine) (m : RMatrix) :
    Except EstErr (FittedModel × ModelType) :=
  match e.fit2PL m with
  | .ok mo => .ok (mo, ModelType.Simple)
  | .error err => .error err

/-- Translation of `fit_irt_model` of `r_service/plumber.R` (identical logic in
`fit_irt_model_standalone` of `r_scripts/irt_analysis.R`): try the 3PL
model (engine errors give `none`), accept it only if it converged and no
coefficient is extreme, otherwise fit the 2PL model with no further check. -/
def fit_irt_model (e : MirtEngine) (m : RMatrix) :
    Except EstErr (FittedModel × ModelType) :=
  match e.fit3PL m with
  | some mo =>
    if mo.converged && !(extremeParams mo.items) then .ok (mo, ModelType.Rich)
    else fit2PLFallback e m
  | none => fit2PLFallback e m

/-- A cache value: fitted model plus its type (`list(model =, type =)`). -/
abbrev FitResult := FittedModel × ModelType

/-- The model cache `irt_model_cache`, an association list keyed by
`data_path`. -/
abbrev Cache := List (String × FitResult)

/-- Cache lookup, mirroring `exists(data_path, envir = irt_model_cache)`
followed by `get`. -/
def cacheFind (c : Cache) (key : String) : Option FitResult :=
  (c.find? (fun p => p.1 == key)).map Prod.snd

/-- Translation of `get_or_fit_model` of `r_service/plumber.R`.  The third component counts
how many times `fit_irt_model` was invoked by the call. -/
def get_or_fit_model (c : Cache) (e : MirtEngine) (key : String) (m : RMatrix) :
    Except EstErr FitResult × Cache × Nat :=
  match cacheFind c key with
  | some v => (.ok v, c, 0)
  | none =>
    match fit_irt_model e m with
    | .ok r => (.ok r, (key, r) :: c, 1)
    | .error err => (.error err, c, 1)

/-- Validation errors of `validate_and_clean_data`: the non-binary-cell
rejection (carrying the sorted unique values reported in the message) and
the fewer-than-10-valid-rows rejection. -/
inductive ValidationError
| schemaError (vals : List ℚ)
| insufficientData
deriving DecidableEq

/-- True iff a cell may appear in a binary response matrix, mirroring
`unique_vals %in% c(0, 1, NA)`. -/
def isBinaryCell (x : Cell) : Bool :=
  match x with
  | none => true
  | some v => decide (v = 0 ∨ v = 1)

/-- The whole-matrix binarity test `all(unique_vals %in% c(0, 1, NA))`. -/
def allBinary (m : RMatrix) : Bool :=
  m.all (fun r => r.all isBinaryCell)

/-- Translation of `sort(unique(as.vector(resp)))`: the distinct non-missing cell values in
ascending order (R's `sort` drops `NA`), as interpolated into the schema
error message. -/
def uniqueSortedVals (m : RMatrix) : List ℚ :=
  List.insertionSort (· ≤ ·) ((m.flatten.filterMap id).dedup)

/-- Translation of `rowSums(resp, na.rm = TRUE)` for one row: missing cells contribute 0. -/
def rowSum (r : List Cell) : ℚ :=
  (r.filterMap id).sum

/-- Translation of `ncol(resp)`: the column count of the matrix. -/
def ncols (m : RMatrix) : Nat :=
  match m with
  | [] => 0
  | r :: _ => r.length

/-- The row filter `row_sums > 0 & row_sums < ncol(resp)`. -/
def validRow (nc : Nat) (r : List Cell) : Bool :=
  decide (0 < rowSum r ∧ rowSum r < (nc : ℚ))

/-- Translation of `validate_and_clean_data` of `r_service/plumber.R` (the `data_path`
presence check and CSV reading stand outside the embedding): reject
non-binary cells with the sorted unique values, drop rows whose sum is not
strictly between 0 and the column count, reject if fewer than 10 rows
remain, and return the cleaned matrix together with the original one. -/
def validate_and_clean_data (m : RMatrix) :
    Except ValidationError (RMatrix × RMatrix) :=
  if allBinary m then
    let clean := m.filter (validRow (ncols m))
    if clean.length < 10 then .error ValidationError.insufficientData
    else .ok (clean, m)
  else .error (ValidationError.schemaError (uniqueSortedVals m))

/-- One normalized item-parameter row (the per-item `tibble` built by
`extract_item_params`); `none` models an `NA` entry. -/
structure ItemParams where
  item_id : String
  discrimination : Option ℚ
  difficulty : Option ℚ
  guessing : Option ℚ
  se_discrimination : Option ℚ
  se_difficulty : Option ℚ
  se_guessing : Option ℚ
  model_type : ModelType
deriving DecidableEq

/-- The body of the `extract_item_params` loop for item `i` (0-based here,
item ids are 1-based): missing discrimination defaults to 1.0, missing
difficulty to 0.0, guessing comes from the table only for the 3PL type,
standard errors default to 0.0 when the table, the row, or the entry is
unavailable. -/
def extractRow (mt : ModelType) (i : Nat) (row : CoefRow) (se : Option SERow) :
    ItemParams :=
  let g : Option ℚ :=
    match mt, row.g with
    | ModelType.Rich, some v => some v
    | _, _ => some 0
  let se_a : Option ℚ := se.bind (fun s => s.a)
  let se_b : Option ℚ := se.bind (fun s => s.b)
  let se_g : ℚ :=
    match mt, se.bind (fun s => s.g) with
    | ModelType.Rich, some v => v
    | _, _ => 0
  { item_id := "item_" ++ toString (i + 1)
    discrimination := some (match row.a with | none => 1 | some v => roundTo 4 v)
    difficulty := some (match row.b with | none => 0 | some v => roundTo 4 v)
    guessing := g.map (roundTo 4)
    se_discrimination := some (match se_a with | none => 0 | some v => roundTo 4 v)
    se_difficulty := some (match se_b with | none => 0 | some v => roundTo 4 v)
    se_guessing := some (roundTo 4 se_g)
    model_type := mt }

/-- Translation of `extract_item_params` of both R implementations: one normalized row per
row of the coefficient table, paired with the same-index row of the
standard-error table when that table is present and long enough. -/
def extract_item_params (tab : List CoefRow) (seTab : Option (List SERow))
    (mt : ModelType) : List ItemParams :=
  tab.enum.map (fun p => extractRow mt p.1 p.2 (seTab.bind (fun l => l.get? p.1)))

/-- The discrimination steps of `clean_parameters`, in source order: absolute
value of a negative value, then cap above 4.0, then floor below 0.1; each
step is guarded by `!is.na(...)`. -/
def cleanDisc (x : Option ℚ) : Option ℚ :=
  x.map (fun v =>
    let v1 := if v < 0 then |v| else v
    let v2 := if 4 < v1 then 4 else v1
    if v2 < 1/10 then 1/10 else v2)

/-- The difficulty steps of `clean_parameters`: floor below −4.0, then cap
above 4.0. -/
def cleanDiff (x : Option ℚ) : Option ℚ :=
  x.map (fun v =>
    let v1 := if v < -4 then -4 else v
    if 4 < v1 then 4 else v1)

/-- The guessing steps of `clean_parameters`, applied only for the 3PL type:
floor below 0, then cap above 0.5. -/
def cleanGuess (mt : ModelType) (x : Option ℚ) : Option ℚ :=
  match mt with
  | ModelType.Simple => x
  | ModelType.Rich =>
    x.map (fun v =>
      let v1 := if v < 0 then 0 else v
      if 1/2 < v1 then 1/2 else v1)

/-- One iteration of the `clean_parameters` loop. -/
def cleanRow (mt : ModelType) (p : ItemParams) : ItemParams :=
  { p with
    discrimination := cleanDisc p.discrimination
    difficulty := cleanDiff p.difficulty
    guessing := cleanGuess mt p.guessing }

/-- Translation of `clean_parameters` of both R implementations. -/
def clean_parameters (ps : List ItemParams) (mt : ModelType) : List ItemParams :=
  ps.map (cleanRow mt)

/-- The coefficient table `coef(model, simplify = TRUE, D = 1, IRTpars =
TRUE)$items` of a fitted model: the `g` column exists only for the 3PL
type. -/
def coefRowsOf (mo : FittedModel) (mt : ModelType) : List CoefRow :=
  mo.items.map (fun p =>
    { a := some p.a
      b := some p.b
      g := match mt with | ModelType.Rich => some p.g | ModelType.Simple => none })

/-- The zero-filled standard-error fallback matrix built when
`extract_standard_errors` returns `NULL`; the 2PL variant has no `g`
column. -/
def fallbackSERows (n : Nat) (mt : ModelType) : List SERow :=
  List.replicate n
    { a := some 0
      b := some 0
      g := match mt with | ModelType.Rich => some 0 | ModelType.Simple => none }

/-- An error surfaced by an endpoint's `tryCatch` handler as
`list(status = "error", error = ...)`. -/
inductive ApiError
| validation (e : ValidationError)
| estimation (e : EstErr)
deriving DecidableEq

/-- The `/analyze` success payload (engine-computed fit statistics such as
M2, AIC, BIC, reliability and the test-information block are produced by
opaque engine calls and are not part of the embedding). -/
structure AnalyzeResponse where
  status : String
  analysis_type : ModelType
  converged : Bool
  n_students : Nat
  n_items : Nat
  original_students : Nat
  item_parameters : List ItemParams
deriving DecidableEq

/-- The `/analyze` endpoint: validate, fit through the cache, extract and
clean the item parameters.  The third component counts `fit_irt_model`
invocations. -/
def analyzeEndpoint (c : Cache) (e : MirtEngine) (key : String) (m : RMatrix) :
    Except ApiError AnalyzeResponse × Cache × Nat :=
  match validate_and_clean_data m with
  | .error ve => (.error (.validation ve), c, 0)
  | .ok (clean, orig) =>
    match get_or_fit_model c e key clean with
    | (.error err, c', n) => (.error (.estimation err), c', n)
    | (.ok (mo, mt), c', n) =>
      let params := coefRowsOf mo mt
      let se := match e.seTable mo mt with
        | some s => s
        | none => fallbackSERows params.length mt
      let ip := clean_parameters (extract_item_params params (some se) mt) mt
      (.ok { status := "success"
             analysis_type := mt
             converged := mo.converged
             n_students := clean.length
             n_items := ncols clean
             original_students := orig.length
             item_parameters := ip }, c', n)

/-- One row of the long-format ICC frame. -/
structure ICCRow where
  theta : ℚ
  probability : ℚ
  item_id : String
deriving DecidableEq

/-- The `/icc` success payload: either a single item's curve or the
long-format frame for all items. -/
inductive ICCResponse
| single (theta : List ℚ) (probability : List ℚ) (item_id : String)
| allItems (icc_data : List ICCRow)
deriving DecidableEq

/-- The ICC rows of one item over the ability grid
(`probtrace(extract.item(model, i), matrix(theta))`). -/
def iccItemRows (e : MirtEngine) (mo : FittedModel) (i : Nat) : List ICCRow :=
  thetaGrid.map (fun θ =>
    { theta := roundTo 6 θ
      probability := roundTo 8 (e.probVal mo i θ)
      item_id := "item_" ++ toString i })

/-- The `/icc` endpoint. -/
def iccEndpoint (c : Cache) (e : MirtEngine) (key : String) (m : RMatrix)
    (item_id : Option Nat) : Except ApiError ICCResponse × Cache × Nat :=
  match validate_and_clean_data m with
  | .error ve => (.error (.validation ve), c, 0)
  | .ok (clean, _) =>
    match get_or_fit_model c e key clean with
    | (.error err, c', n) => (.error (.estimation err), c', n)
    | (.ok (mo, _), c', n) =>
      match item_id with
      | some i =>
        (.ok (ICCResponse.single (thetaGrid.map (roundTo 6))
          (thetaGrid.map (fun θ => roundTo 8 (e.probVal mo i θ)))
          ("item_" ++ toString i)), c', n)
      | none =>
        (.ok (ICCResponse.allItems
          (((List.range (ncols clean)).map (fun i => iccItemRows e mo (i + 1))).flatten)),
          c', n)

/-- One row of the long-format IIF frame; `iif = none` models the `NA`
placeholders substituted for a failed item. -/
structure IIFRow where
  theta : ℚ
  iif : Option ℚ
  item_id : String
deriving DecidableEq

/-- The `/iif` success payload. -/
structure IIFResponse where
  status : String
  iif_data : List IIFRow
deriving DecidableEq

/-- The IIF rows of one item: when `extract.item`/`iteminfo` throws for the
item, the handler substitutes a same-length frame of `NA` values for that
item only; otherwise the computed values are rounded to 8 decimals. -/
def iifItemRows (e : MirtEngine) (mo : FittedModel) (i : Nat) : List IIFRow :=
  if e.iifFails mo i then
    thetaGrid.map (fun θ =>
      { theta := roundTo 6 θ, iif := none, item_id := "item_" ++ toString i })
  else
    thetaGrid.map (fun θ =>
      { theta := roundTo 6 θ
        iif := some (roundTo 8 (e.iifVal mo i θ))
        item_id := "item_" ++ toString i })

/-- The `/iif` endpoint: validate, fit through the cache, then bind the
per-item frames (items are 1-based `1:ncol(resp_clean)`). -/
def iifEndpoint (c : Cache) (e : MirtEngine) (key : String) (m : RMatrix) :
    Except ApiError IIFResponse × Cache × Nat :=
  match validate_and_clean_data m with
  | .error ve => (.error (.validation ve), c, 0)
  | .ok (clean, _) =>
    match get_or_fit_model c e key clean with
    | (.error err, c', n) => (.error (.estimation err), c', n)
    | (.ok (mo, _), c', n) =>
      (.ok { status := "success"
             iif_data :=
               ((List.range (ncols clean)).map (fun i => iifItemRows e mo (i + 1))).flatten },
        c', n)

/-- The `/testinfo` success payload; `none` information values model the
`NA` vector substituted when `testinfo` fails. -/
structure TestInfoResponse where
  status : String
  theta : List ℚ
  information : List (Option ℚ)
deriving DecidableEq

/-- The `/testinfo` endpoint. -/
def testinfoEndpoint (c : Cache) (e : MirtEngine) (key : String) (m : RMatrix) :
    Except ApiError TestInfoResponse × Cache × Nat :=
  match validate_and_clean_data m with
  | .error ve => (.error (.validation ve), c, 0)
  | .ok (clean, _) =>
    match get_or_fit_model c e key clean with
    | (.error err, c', n) => (.error (.estimation err), c', n)
    | (.ok (mo, _), c', n) =>
      let info : List (Option ℚ) :=
        if e.testinfoOk mo then
          thetaGrid.map (fun θ => some (roundTo 8 (e.testinfoVal mo θ)))
        else thetaGrid.map (fun _ => none)
      (.ok { status := "success"
             theta := thetaGrid.map (roundTo 6)
             information := info }, c', n)

/-- Translation of `perform_irt_analysis` of the standalone `r_scripts/irt_analysis.R`:
it applies only the row filter and the minimum-row check (its comment reads
"Full validation should be done outside this script") — there is no binary
schema check — then fits and extracts exactly like the service.  The second
component counts `fit_irt_model` invocations. -/
def perform_irt_analysis (e : MirtEngine) (m : RMatrix) :
    Except ApiError (List ItemParams × ModelType) × Nat :=
  let clean := m.filter (validRow (ncols m))
  if clean.length < 10 then (.error (.validation ValidationError.insufficientData), 0)
  else
    match fit_irt_model e clean with
    | .error err => (.error (.estimation err), 1)
    | .ok (mo, mt) =>
      let params := coefRowsOf mo mt
      let se := match e.seTable mo mt with
        | some s => s
        | none => fallbackSERows params.length mt
      (.ok (clean_parameters (extract_item_params params (some se) mt) mt, mt), 1)

/-- Spec-side acceptance condition for the Rich model, written from the
spec's words (section 4.2 step 3) with the amended closed lower bound 0.01
on discrimination: the engine returned a converged model and every item's
coefficients lie within the plausibility bounds. -/
def richAcceptable (mo : FittedModel) : Prop :=
  mo.converged = true ∧
  ∀ p ∈ mo.items,
    p.a ≤ 10 ∧ 1/100 ≤ p.a ∧ p.b ≤ 10 ∧ (-10:ℚ) ≤ p.b ∧ p.g ≤ 1/2 ∧ 0 ≤ p.g

/-- A 2PL model that did not converge, as the engine may return it. -/
def simple2PLModel : FittedModel :=
  { converged := false, items := [] }

/-- A baseline engine: the 3PL fit errors out, the 2PL fit returns a
non-converged model, all curve evaluations are trivial. -/
def trivialEngine : MirtEngine :=
  { fit3PL := fun _ => none
    fit2PL := fun _ => .ok simple2PLModel
    seTable := fun _ _ => none
    probVal := fun _ _ _ => 0
    iifFails := fun _ _ => false
    iifVal := fun _ _ _ => 0
    testinfoOk := fun _ => true
    testinfoVal := fun _ => 0 }

/-- A converged 3PL model with one item whose discrimination sits exactly on
the 0.01 boundary. -/
def boundary3PLModel : FittedModel :=
  { converged := true, items := [{ a := 1/100, b := 0, g := 0 }] }

/-- An engine whose 3PL fit returns `boundary3PLModel`. -/
def boundaryEngine : MirtEngine :=
  { trivialEngine with fit3PL := fun _ => some boundary3PLModel }

/-- A well-behaved converged 3PL model with two items. -/
def good3PLModel : FittedModel :=
  { converged := true, items := [{ a := 1, b := 0, g := 0 }, { a := 1, b := 0, g := 0 }] }

/-- An engine whose 3PL fit returns `good3PLModel` and whose item-information
computation throws exactly for item 1. -/
def iifFailEngine : MirtEngine :=
  { trivialEngine with
    fit3PL := fun _ => some good3PLModel
    iifFails := fun _ i => decide (i = 1)
    iifVal := fun _ _ _ => 1/2 }

/-- An engine whose 2PL fit (the fallback) itself raises an error. -/
def fatal2PLEngine : MirtEngine :=
  { trivialEngine with fit2PL := fun _ => .error (.estimationError "fatal") }

/-- A mixed response row: one correct and one incorrect answer. -/
def goodRow : List Cell := [some 1, some 0]

/-- Ten mixed rows: the smallest accepted dataset. -/
def mat10 : RMatrix := List.replicate 10 goodRow

/-- Nine mixed rows: rejected for insufficient data. -/
def mat9 : RMatrix := List.replicate 9 goodRow

/-- Ten mixed rows plus a row whose observed cells are all correct and whose
second cell is missing; the row filter keeps all eleven rows. -/
def matNA11 : RMatrix := List.replicate 10 goodRow ++ [[some 1, none]]

/-- A matrix with a non-binary cell. -/
def matBad : RMatrix := [[some 2, some 0]]

/-- A row with a non-binary cell whose sum still lies strictly between 0 and
the column count. -/
def badRow3 : List Cell := [some 2, some 0, some 0]

/-- Ten rows with non-binary cells that nevertheless pass the standalone
script's row filter. -/
def matBad10 : RMatrix := List.replicate 10 badRow3

/-- The fit result cached by a first successful call on `trivialEngine`. -/
def fitResW : FitResult := (simple2PLModel, ModelType.Simple)

/-- A coefficient-table row with every entry missing. -/
def oneCoefRow : CoefRow := { a := none, b := none, g := none }

/-- A parameter row whose only nontrivial field is the discrimination. -/
def discOnlyRow (v : ℚ) : ItemParams :=
  { item_id := "item_1"
    discrimination := some v
    difficulty := some 0
    guessing := some 0
    se_discrimination := some 0
    se_difficulty := some 0
    se_guessing := some 0
    model_type := ModelType.Rich }

/-- One entry of the standalone script's `iif_list`: the
`list(theta = ..., info = ...)` value stored per item. -/
structure IIFEntry where
  theta : List ℚ
  info : List (Option ℚ)
deriving DecidableEq

/-- The entry the standalone IIF loop stores for a successfully computed
item. -/
def standaloneIifEntry (e : MirtEngine) (mo : FittedModel) (i : Nat) : IIFEntry :=
  { theta := thetaGrid.map (roundTo 6)
    info := thetaGrid.map (fun θ => some (roundTo 8 (e.iifVal mo i θ))) }

/-- Translation of the standalone IIF loop of `r_scripts/irt_analysis.R`
(the `iif_list` accumulation), including its scoping slip: the success
branch's `iif_list[[...]] <-` runs in the calling frame and updates the
list, but the error handler is a function, so its
`iif_list[[...]] <- list(theta = ..., info = rep(NA, ...))` binds a
handler-local copy (plain `<-`, not `<<-`) whose value the `for` loop
discards — a failing item therefore contributes no entry at all to the
outer list. -/
def standalone_iif_list (e : MirtEngine) (mo : FittedModel) (nItems : Nat) :
    List (String × IIFEntry) :=
  (List.range nItems).foldl
    (fun acc i =>
      if e.iifFails mo (i + 1) then acc
      else acc ++ [("item_" ++ toString (i + 1), standaloneIifEntry e mo (i + 1))])
    []

/-! ## Helper lemmas -/

lemma extremeParams_eq_false (items : List ItemCoefs) :
    extremeParams items = false ↔
      ∀ p ∈ items,
        p.a ≤ 10 ∧ 1/100 ≤ p.a ∧ p.b ≤ 10 ∧ (-10:ℚ) ≤ p.b ∧ p.g ≤ 1/2 ∧ 0 ≤ p.g := by
  rw [extremeParams, decide_eq_false_iff_not]
  push_neg
  rfl

lemma thetaGrid_length : thetaGrid.length = 101 := by
  rw [thetaGrid, List.length_map, List.length_range]

lemma fit2PLFallback_ne_rich (e : MirtEngine) (m : RMatrix) (mo : FittedModel) :
    fit2PLFallback e m ≠ .ok (mo, ModelType.Rich) := by
  unfold fit2PLFallback
  cases h : e.fit2PL m <;> simp

lemma cleanDisc_bounds (v : ℚ) :
    ∃ d, cleanDisc (some v) = some d ∧ 1/10 ≤ d ∧ d ≤ 4 := by
  refine ⟨_, rfl, ?_, ?_⟩
  · simp only []
    split_ifs <;> norm_num <;> linarith [abs_nonneg v]
  · simp only []
    split_ifs <;> norm_num <;> linarith [abs_nonneg v]

lemma cleanDiff_bounds (v : ℚ) :
    ∃ d, cleanDiff (some v) = some d ∧ (-4:ℚ) ≤ d ∧ d ≤ 4 := by
  refine ⟨_, rfl, ?_, ?_⟩
  · simp only []
    split_ifs <;> norm_num <;> linarith
  · simp only []
    split_ifs <;> norm_num <;> linarith

/-! ## C9 -/

/-- C9: the cleaning pass maps a discrimination of 5.0 to exactly 4.0 and a
discrimination of −0.05 to exactly 0.1, and the steps run in the fixed order
absolute value, cap above 4.0, floor below 0.1 (so −5 goes through the
absolute value first and is then capped to 4). -/
theorem claim_C9_clean_round_trip :
    clean_parameters [discOnlyRow 5] ModelType.Rich = [discOnlyRow 4] ∧
    clean_parameters [discOnlyRow (-5/100)] ModelType.Rich = [discOnlyRow (1/10)] ∧
    cleanDisc (some (-5)) = some 4 := by
  have h1 : |(1/20 : ℚ)| = 1/20 := abs_of_nonneg (by norm_num)
  have h2 : |(5 : ℚ)| = 5 := abs_of_nonneg (by norm_num)
  refine ⟨?_, ?_, ?_⟩ <;>
    norm_num [clean_parameters, cleanRow, cleanDisc, cleanDiff, cleanGuess, discOnlyRow,
      h1, h2]

/-! ## Evaluation lemmas for the fitting state machine -/

lemma fit_accepts (e : MirtEngine) (m : RMatrix) (mo : FittedModel)
    (h3 : e.fit3PL m = some mo)
    (hcv : mo.converged = true) (hxt : extremeParams mo.items = false) :
    fit_irt_model e m = .ok (mo, ModelType.Rich) := by
  simp [fit_irt_model, h3, hcv, hxt]

lemma fit_rejects (e : MirtEngine) (m : RMatrix)
    (h : ∀ mo, e.fit3PL m = some mo →
      mo.converged = false ∨ extremeParams mo.items = true) :
    fit_irt_model e m = fit2PLFallback e m := by
  cases h3 : e.fit3PL m with
  | none => simp [fit_irt_model, h3]
  | some mo =>
    have hc : (mo.converged && !(extremeParams mo.items)) = false := by
      rcases h mo h3 with hh | hh <;> simp [hh]
    simp [fit_irt_model, h3, hc]

/-! ## C10 -/

/-- C10: every item row produced by extraction followed by cleaning has a
non-missing discrimination in [0.1, 4.0] and a non-missing difficulty in
[−4.0, 4.0], for every coefficient table, standard-error table, and model
type. -/
theorem claim_C10_extracted_bounds (tab : List CoefRow) (seTab : Option (List SERow))
    (mt : ModelType) (p : ItemParams)
    (hp : p ∈ clean_parameters (extract_item_params tab seTab mt) mt) :
    p.discrimination ≠ none ∧ p.difficulty ≠ none ∧
    1/10 ≤ p.discrimination.getD 0 ∧ p.discrimination.getD 0 ≤ 4 ∧
    (-4:ℚ) ≤ p.difficulty.getD 0 ∧ p.difficulty.getD 0 ≤ 4 := by
  obtain ⟨q, hq, rfl⟩ := List.mem_map.mp hp
  obtain ⟨ip, -, rfl⟩ := List.mem_map.mp hq
  obtain ⟨a0, ha0⟩ :
      ∃ a0, (extractRow mt ip.1 ip.2 (seTab.bind (fun l => l.get? ip.1))).discrimination
        = some a0 := ⟨_, rfl⟩
  obtain ⟨b0, hb0⟩ :
      ∃ b0, (extractRow mt ip.1 ip.2 (seTab.bind (fun l => l.get? ip.1))).difficulty
        = some b0 := ⟨_, rfl⟩
  obtain ⟨d, hd, hd1, hd2⟩ := cleanDisc_bounds a0
  obtain ⟨b, hb, hb1, hb2⟩ := cleanDiff_bounds b0
  have e1 : (cleanRow mt (extractRow mt ip.1 ip.2
      (seTab.bind (fun l => l.get? ip.1)))).discrimination = some d := by
    rw [cleanRow, ha0, hd]
  have e2 : (cleanRow mt (extractRow mt ip.1 ip.2
      (seTab.bind (fun l => l.get? ip.1)))).difficulty = some b := by
    rw [cleanRow, hb0, hb]
  rw [e1, e2]
  refine ⟨by simp, by simp, ?_, ?_, ?_, ?_⟩
  · simpa using hd1
  · simpa using hd2
  · simpa using hb1
  · simpa using hb2

/-- Witness for C10 at a one-row coefficient table with every entry
missing. -/
theorem claim_C10_witness :
    (cleanRow ModelType.Simple
        (extractRow ModelType.Simple 0 oneCoefRow none)).discrimination ≠ none ∧
    (cleanRow ModelType.Simple
        (extractRow ModelType.Simple 0 oneCoefRow none)).difficulty ≠ none ∧
    1/10 ≤ (cleanRow ModelType.Simple
        (extractRow ModelType.Simple 0 oneCoefRow none)).discrimination.getD 0 ∧
    (cleanRow ModelType.Simple
        (extractRow ModelType.Simple 0 oneCoefRow none)).discrimination.getD 0 ≤ 4 ∧
    (-4:ℚ) ≤ (cleanRow ModelType.Simple
        (extractRow ModelType.Simple 0 oneCoefRow none)).difficulty.getD 0 ∧
    (cleanRow ModelType.Simple
        (extractRow ModelType.Simple 0 oneCoefRow none)).difficulty.getD 0 ≤ 4 := by
  have hmem : cleanRow ModelType.Simple (extractRow ModelType.Simple 0 oneCoefRow none) ∈
      clean_parameters (extract_item_params [oneCoefRow] none ModelType.Simple)
        ModelType.Simple := by
    have heq : clean_parameters (extract_item_params [oneCoefRow] none ModelType.Simple)
        ModelType.Simple =
        [cleanRow ModelType.Simple (extractRow ModelType.Simple 0 oneCoefRow none)] := rfl
    rw [heq]
    exact List.mem_singleton.mpr rfl
  exact claim_C10_extracted_bounds [oneCoefRow] none ModelType.Simple _ hmem

/-! ## C1 -/

/-- C1 (amended): `fit` returns the Rich type exactly when the 3PL call
succeeds, the model converged, and every item's coefficients lie within the
closed plausibility bounds (discrimination in [0.01, 10], difficulty in
[−10, 10], guessing in [0, 0.5]); in every other case it runs the Simple
fit and, when that returns a model, the result is of Simple type — so a
returned fit is of exactly one of the two types. -/
theorem claim_C1_rich_iff_bounds (e : MirtEngine) (m : RMatrix) :
    ((∃ mo, fit_irt_model e m = .ok (mo, ModelType.Rich)) ↔
      ∃ mo, e.fit3PL m = some mo ∧ richAcceptable mo) ∧
    ((¬ ∃ mo, e.fit3PL m = some mo ∧ richAcceptable mo) →
      ∀ mo2, e.fit2PL m = .ok mo2 →
        fit_irt_model e m = .ok (mo2, ModelType.Simple)) ∧
    (∀ res, fit_irt_model e m = .ok res →
      res.2 = ModelType.Rich ∨ res.2 = ModelType.Simple) := by
  have reject_of_unacceptable :
      (¬ ∃ mo, e.fit3PL m = some mo ∧ richAcceptable mo) →
        fit_irt_model e m = fit2PLFallback e m := by
    intro hno
    apply fit_rejects
    intro mo h3
    cases hcv : mo.converged with
    | false => exact Or.inl rfl
    | true =>
      cases hxt : extremeParams mo.items with
      | true => exact Or.inr rfl
      | false =>
        exact absurd ⟨mo, h3, hcv, (extremeParams_eq_false mo.items).mp hxt⟩ hno
  refine ⟨?_, ?_, ?_⟩
  · constructor
    · rintro ⟨mo', hmo'⟩
      by_contra hno
      rw [reject_of_unacceptable hno] at hmo'
      exact fit2PLFallback_ne_rich e m mo' hmo'
    · rintro ⟨mo, h3, hcv, hbounds⟩
      exact ⟨mo, fit_accepts e m mo h3 hcv ((extremeParams_eq_false mo.items).mpr hbounds)⟩
  · intro hno mo2 h2
    rw [reject_of_unacceptable hno, fit2PLFallback, h2]
  · intro res _
    cases hres : res.2 with
    | Rich => exact Or.inl rfl
    | Simple => exact Or.inr rfl

/-- Counterexample to C1 as stated: an engine whose converged 3PL model has
an item with discrimination exactly 0.01 is accepted as Rich by the code,
yet 0.01 lies outside the claim's open interval (0.01, 10]. -/
theorem claim_C1_counterexample :
    fit_irt_model boundaryEngine [] = .ok (boundary3PLModel, ModelType.Rich) ∧
    ¬ (∀ p ∈ boundary3PLModel.items,
        1/100 < p.a ∧ p.a ≤ 10 ∧ (-10:ℚ) ≤ p.b ∧ p.b ≤ 10 ∧ 0 ≤ p.g ∧ p.g ≤ 1/2) := by
  constructor
  · have hxt : extremeParams boundary3PLModel.items = false := by
      apply (extremeParams_eq_false _).mpr
      intro p hp
      simp only [boundary3PLModel, List.mem_singleton] at hp
      subst hp
      norm_num
    exact fit_accepts boundaryEngine [] boundary3PLModel rfl rfl hxt
  · intro hall
    have h := hall { a := 1/100, b := 0, g := 0 } (by simp [boundary3PLModel])
    exact absurd h.1 (lt_irrefl _)

/-- Witness for C1 at an engine whose 3PL fit fails: the fallback 2PL model
is returned with the Simple type. -/
theorem claim_C1_witness :
    fit_irt_model trivialEngine mat9 = .ok (simple2PLModel, ModelType.Simple) := by
  refine (claim_C1_rich_iff_bounds trivialEngine mat9).2.1 ?_ simple2PLModel rfl
  rintro ⟨mo, hmo, -⟩
  cases hmo

/-! ## C4 -/

/-- C4: once the Rich attempt is rejected (engine error, non-convergence, or
extreme coefficients), the Simple model returned by the engine is always
accepted with no plausibility or convergence check; and if the Simple fit
itself errors, that error propagates as the result of `fit`. -/
theorem claim_C4_simple_always_accepted (e : MirtEngine) (m : RMatrix)
    (hrej : ∀ mo, e.fit3PL m = some mo →
      mo.converged = false ∨ extremeParams mo.items = true) :
    (∀ mo2, e.fit2PL m = .ok mo2 → fit_irt_model e m = .ok (mo2, ModelType.Simple)) ∧
    (∀ err, e.fit2PL m = .error err → fit_irt_model e m = .error err) := by
  have hfall := fit_rejects e m hrej
  constructor
  · intro mo2 h2
    rw [hfall, fit2PLFallback, h2]
  · intro err h2
    rw [hfall, fit2PLFallback, h2]

/-- Witness for C4: with the 3PL fit failing, a non-converged 2PL model is
accepted as Simple, and an erroring 2PL fit propagates its error. -/
theorem claim_C4_witness :
    (fit_irt_model trivialEngine [] = .ok (simple2PLModel, ModelType.Simple) ∧
      simple2PLModel.converged = false) ∧
    fit_irt_model fatal2PLEngine [] = .error (.estimationError "fatal") := by
  have hrej1 : ∀ mo, trivialEngine.fit3PL [] = some mo →
      mo.converged = false ∨ extremeParams mo.items = true := by
    rintro mo hmo
    cases hmo
  have hrej2 : ∀ mo, fatal2PLEngine.fit3PL [] = some mo →
      mo.converged = false ∨ extremeParams mo.items = true := by
    rintro mo hmo
    cases hmo
  refine ⟨⟨?_, rfl⟩, ?_⟩
  · exact (claim_C4_simple_always_accepted trivialEngine [] hrej1).1 simple2PLModel rfl
  · exact (claim_C4_simple_always_accepted fatal2PLEngine [] hrej2).2
      (.estimationError "fatal") rfl

/-! ## C6 and C7: the model cache -/

lemma cacheFind_preserved (c : Cache) (key key2 : String) (v : FitResult)
    (e : MirtEngine) (m : RMatrix) (h : cacheFind c key = some v) :
    cacheFind (get_or_fit_model c e key2 m).2.1 key = some v := by
  cases h2 : cacheFind c key2 with
  | some w => simpa [get_or_fit_model, h2] using h
  | none =>
    cases hf : fit_irt_model e m with
    | error err => simpa [get_or_fit_model, h2, hf] using h
    | ok r =>
      have hne : ((key2 : String) == key) = false := by
        rw [beq_eq_false_iff_ne]
        intro hkk
        rw [hkk, h] at h2
        cases h2
      simp only [get_or_fit_model, h2, hf]
      simp only [cacheFind, List.find?_cons, hne]
      exact h

/-- C6: once a successful `getOrFit` call has an entry stored for `key`,
every later `getOrFit` for the same key returns the stored entry with the
cache unchanged and zero fitter invocations, for any engine and any matrix
argument; and calls for other keys never disturb the entry. -/
theorem claim_C6_cache_hit_ignores_matrix (c c' : Cache) (e : MirtEngine)
    (key : String) (m : RMatrix) (r : FitResult) (n : Nat)
    (h : get_or_fit_model c e key m = (.ok r, c', n)) :
    cacheFind c' key = some r ∧
    (∀ e2 m2, get_or_fit_model c' e2 key m2 = (.ok r, c', 0)) ∧
    (∀ e2 key2 m2, cacheFind (get_or_fit_model c' e2 key2 m2).2.1 key = some r) := by
  have hfind : cacheFind c' key = some r := by
    cases h2 : cacheFind c key with
    | some w =>
      simp only [get_or_fit_model, h2, Prod.mk.injEq, Except.ok.injEq] at h
      obtain ⟨rfl, rfl, -⟩ := h
      exact h2
    | none =>
      cases hf : fit_irt_model e m with
      | ok r0 =>
        simp only [get_or_fit_model, h2, hf, Prod.mk.injEq, Except.ok.injEq] at h
        obtain ⟨rfl, rfl, -⟩ := h
        rw [cacheFind, List.find?_cons_of_pos _ (by simp)]
        rfl
      | error err =>
        simp [get_or_fit_model, h2, hf] at h
  refine ⟨hfind, ?_, fun e2 key2 m2 => cacheFind_preserved c' key key2 r e2 m2 hfind⟩
  intro e2 m2
  simp [get_or_fit_model, hfind]

/-- Witness for C6: after a first fit stored an entry under key "k", a
second call with a different engine and a different matrix returns the
stored entry unchanged with zero fitter invocations. -/
theorem claim_C6_witness :
    get_or_fit_model [("k", fitResW)] boundaryEngine "k" mat9 =
      (.ok fitResW, [("k", fitResW)], 0) := by
  have h0 : get_or_fit_model [] trivialEngine "k" [] =
      (.ok fitResW, [("k", fitResW)], 1) := rfl
  exact (claim_C6_cache_hit_ignores_matrix [] [("k", fitResW)] trivialEngine "k" []
    fitResW 1 h0).2.1 boundaryEngine mat9

/-- C7: when the fit raises inside a cache miss, the error is surfaced, the
cache is unchanged (no entry is published), and any subsequent access for
the key invokes the fitter again. -/
theorem claim_C7_no_cache_on_error (c : Cache) (e : MirtEngine) (key : String)
    (m : RMatrix) (err : EstErr)
    (hmiss : cacheFind c key = none) (hfit : fit_irt_model e m = .error err) :
    get_or_fit_model c e key m = (.error err, c, 1) ∧
    (∀ e2 m2, (get_or_fit_model c e2 key m2).2.2 = 1) := by
  constructor
  · simp [get_or_fit_model, hmiss, hfit]
  · intro e2 m2
    cases hf : fit_irt_model e2 m2 <;> simp [get_or_fit_model, hmiss, hf]

/-- Witness for C7: an erroring fallback fit leaves the empty cache empty
and surfaces the estimation error. -/
theorem claim_C7_witness :
    get_or_fit_model [] fatal2PLEngine "k" [] =
      (.error (.estimationError "fatal"), [], 1) :=
  (claim_C7_no_cache_on_error [] fatal2PLEngine "k" [] (.estimationError "fatal")
    rfl rfl).1

/-! ## Row and validation lemmas -/

lemma rowSum_cons_none (xs : List Cell) : rowSum (none :: xs) = rowSum xs := by
  simp [rowSum, List.filterMap_cons]

lemma rowSum_cons_some (v : ℚ) (xs : List Cell) :
    rowSum (some v :: xs) = v + rowSum xs := by
  simp [rowSum, List.filterMap_cons]

lemma mem_one_of_rowSum_pos (r : List Cell)
    (hb : ∀ x ∈ r, isBinaryCell x = true) (h : 0 < rowSum r) :
    some (1:ℚ) ∈ r := by
  induction r with
  | nil => simp [rowSum] at h
  | cons x xs ih =>
    cases x with
    | none =>
      rw [rowSum_cons_none] at h
      exact List.mem_cons_of_mem _ (ih (fun y hy => hb y (List.mem_cons_of_mem _ hy)) h)
    | some v =>
      have hbx : v = 0 ∨ v = 1 := by
        simpa [isBinaryCell] using hb (some v) (List.mem_cons_self _ _)
      rcases hbx with rfl | rfl
      · rw [rowSum_cons_some, zero_add] at h
        exact List.mem_cons_of_mem _ (ih (fun y hy => hb y (List.mem_cons_of_mem _ hy)) h)
      · exact List.mem_cons_self _ _

lemma mem_zero_of_rowSum_lt (r : List Cell)
    (hb : ∀ x ∈ r, isBinaryCell x = true) (hna : (none : Cell) ∉ r)
    (h : rowSum r < (r.length : ℚ)) :
    some (0:ℚ) ∈ r := by
  induction r with
  | nil => simp [rowSum] at h
  | cons x xs ih =>
    cases x with
    | none => exact absurd (List.mem_cons_self _ _) hna
    | some v =>
      have hbx : v = 0 ∨ v = 1 := by
        simpa [isBinaryCell] using hb (some v) (List.mem_cons_self _ _)
      rcases hbx with rfl | rfl
      · exact List.mem_cons_self _ _
      · rw [rowSum_cons_some] at h
        have h' : rowSum xs < (xs.length : ℚ) := by
          rw [List.length_cons] at h
          push_cast at h ⊢
          linarith
        refine List.mem_cons_of_mem _ (ih (fun y hy => hb y (List.mem_cons_of_mem _ hy))
          (fun hy => hna (List.mem_cons_of_mem _ hy)) h')

lemma validate_ok_iff (m : RMatrix) (hbin : allBinary m = true) :
    (validate_and_clean_data m = .ok (m.filter (validRow (ncols m)), m) ↔
      10 ≤ (m.filter (validRow (ncols m))).length) ∧
    (validate_and_clean_data m = .error ValidationError.insufficientData ↔
      (m.filter (validRow (ncols m))).length < 10) := by
  simp only [validate_and_clean_data, if_pos hbin]
  by_cases hlen : (m.filter (validRow (ncols m))).length < 10
  · rw [if_pos hlen]
    exact ⟨⟨fun h => Except.noConfusion h, fun h => absurd hlen (not_lt.mpr h)⟩,
      ⟨fun _ => hlen, fun _ => rfl⟩⟩
  · rw [if_neg hlen]
    exact ⟨⟨fun _ => not_lt.mp hlen, fun _ => rfl⟩,
      ⟨fun h => Except.noConfusion h, fun h => absurd h hlen⟩⟩

/-! ## Concrete evaluation lemmas -/

lemma allBinary_mat10 : allBinary mat10 = true := by
  norm_num [allBinary, mat10, goodRow, isBinaryCell, List.replicate]

lemma allBinary_mat9 : allBinary mat9 = true := by
  norm_num [allBinary, mat9, goodRow, isBinaryCell, List.replicate]

lemma filter_mat10 : mat10.filter (validRow (ncols mat10)) = mat10 := by
  norm_num [mat10, goodRow, List.replicate, validRow, rowSum, ncols, List.filterMap_cons]

lemma filter_mat9 : mat9.filter (validRow (ncols mat9)) = mat9 := by
  norm_num [mat9, goodRow, List.replicate, validRow, rowSum, ncols, List.filterMap_cons]

lemma validate_mat10_eval : validate_and_clean_data mat10 = .ok (mat10, mat10) := by
  have hlen10 : mat10.length = 10 := by simp [mat10]
  simp [validate_and_clean_data, allBinary_mat10, filter_mat10, hlen10]

/-! ## C5 -/

/-- C5: under a schema-valid table, validation keeps exactly the rows whose
sum lies strictly between 0 and the item count, succeeds exactly when at
least 10 such rows remain, and fails with the insufficient-data error
exactly when fewer than 10 remain. -/
theorem claim_C5_row_filter_threshold (m : RMatrix) (hbin : allBinary m = true) :
    (∀ r, validRow (ncols m) r = true ↔ 0 < rowSum r ∧ rowSum r < (ncols m : ℚ)) ∧
    (validate_and_clean_data m = .ok (m.filter (validRow (ncols m)), m) ↔
      10 ≤ (m.filter (validRow (ncols m))).length) ∧
    (validate_and_clean_data m = .error ValidationError.insufficientData ↔
      (m.filter (validRow (ncols m))).length < 10) :=
  ⟨fun r => by simp [validRow], (validate_ok_iff m hbin).1, (validate_ok_iff m hbin).2⟩

/-- Witness for C5: the ten-row dataset is accepted, the nine-row dataset is
rejected with the insufficient-data error. -/
theorem claim_C5_witness :
    validate_and_clean_data mat10 = .ok (mat10, mat10) ∧
    validate_and_clean_data mat9 = .error ValidationError.insufficientData := by
  constructor
  · have hlen : 10 ≤ (mat10.filter (validRow (ncols mat10))).length := by
      rw [filter_mat10]
      simp [mat10]
    have h := (claim_C5_row_filter_threshold mat10 allBinary_mat10).2.1.mpr hlen
    rwa [filter_mat10] at h
  · have hlen : (mat9.filter (validRow (ncols mat9))).length < 10 := by
      rw [filter_mat9]
      simp [mat9]
    exact (claim_C5_row_filter_threshold mat9 allBinary_mat9).2.2.mpr hlen

/-! ## C2 -/

/-- C2 (amended): every row of the cleaned matrix contains at least one
correct (1) response, and also at least one incorrect (0) response whenever
the row has no missing cells; a kept row whose observed entries are all 1
may survive when it contains missing cells. -/
theorem claim_C2_cleaned_rows (m clean orig : RMatrix)
    (hrect : ∀ r ∈ m, r.length = ncols m)
    (h : validate_and_clean_data m = .ok (clean, orig)) :
    ∀ r ∈ clean, some (1:ℚ) ∈ r ∧ ((none : Cell) ∉ r → some (0:ℚ) ∈ r) := by
  have hbin : allBinary m = true := by
    cases hab : allBinary m with
    | true => rfl
    | false => simp [validate_and_clean_data, hab] at h
  have hclean : clean = m.filter (validRow (ncols m)) := by
    simp only [validate_and_clean_data, if_pos hbin] at h
    by_cases hlen : (m.filter (validRow (ncols m))).length < 10
    · rw [if_pos hlen] at h
      exact Except.noConfusion h
    · rw [if_neg hlen] at h
      simp only [Except.ok.injEq, Prod.mk.injEq] at h
      exact h.1.symm
  intro r hr
  rw [hclean] at hr
  obtain ⟨hrm, hvr⟩ := List.mem_filter.mp hr
  have hv : 0 < rowSum r ∧ rowSum r < ((ncols m : ℚ)) := of_decide_eq_true hvr
  have hb : ∀ x ∈ r, isBinaryCell x = true := by
    have h1 : (r.all isBinaryCell) = true := by
      rw [allBinary, List.all_eq_true] at hbin
      exact hbin r hrm
    exact List.all_eq_true.mp h1
  refine ⟨mem_one_of_rowSum_pos r hb hv.1, fun hna => ?_⟩
  apply mem_zero_of_rowSum_lt r hb hna
  rw [hrect r hrm]
  exact hv.2

/-- Counterexample to C2 as stated: with a missing cell present, the row
`[1, NA]` passes the cleaner (row sum 1 lies strictly between 0 and the
column count 2) although it contains no incorrect (0) response. -/
theorem claim_C2_counterexample :
    validate_and_clean_data matNA11 = .ok (matNA11, matNA11) ∧
    [some (1:ℚ), none] ∈ matNA11 ∧
    some (0:ℚ) ∉ ([some (1:ℚ), none] : List Cell) := by
  refine ⟨?_, ?_, ?_⟩
  · have hb : allBinary matNA11 = true := by
      norm_num [allBinary, matNA11, goodRow, isBinaryCell, List.replicate]
    have hf : matNA11.filter (validRow (ncols matNA11)) = matNA11 := by
      norm_num [matNA11, goodRow, List.replicate, validRow, rowSum, ncols,
        List.filterMap_cons]
    have hlen : matNA11.length = 11 := by simp [matNA11]
    simp [validate_and_clean_data, hb, hf, hlen]
  · simp [matNA11]
  · intro hmem
    rcases List.mem_cons.mp hmem with h | h
    · exact absurd (Option.some.inj h) (by norm_num)
    · simp at h

/-- Witness for C2 at the all-observed ten-row dataset: the kept row has
both a 1 and a 0. -/
theorem claim_C2_witness : some (1:ℚ) ∈ goodRow ∧ some (0:ℚ) ∈ goodRow := by
  have hrect : ∀ r ∈ mat10, r.length = ncols mat10 := by
    intro r hr
    simp only [mat10] at hr
    rw [List.eq_of_mem_replicate hr]
    rfl
  have hmem : goodRow ∈ mat10 := by
    simp [mat10, List.mem_replicate]
  have h := claim_C2_cleaned_rows mat10 mat10 mat10 hrect validate_mat10_eval
    goodRow hmem
  exact ⟨h.1, h.2 (by simp [goodRow])⟩

/-! ## C8 -/

lemma allBinary_false_of_bad (m : RMatrix) (r : List Cell) (v : ℚ)
    (hr : r ∈ m) (hv : some v ∈ r) (h0 : v ≠ 0) (h1 : v ≠ 1) :
    allBinary m = false := by
  cases hab : allBinary m with
  | false => rfl
  | true =>
    exfalso
    rw [allBinary, List.all_eq_true] at hab
    have h2 := List.all_eq_true.mp (hab r hr) (some v) hv
    simp [isBinaryCell] at h2
    tauto

lemma mem_uniqueSortedVals (m : RMatrix) (r : List Cell) (v : ℚ)
    (hr : r ∈ m) (hv : some v ∈ r) :
    v ∈ uniqueSortedVals m := by
  rw [uniqueSortedVals,
    (List.perm_insertionSort (· ≤ ·) ((m.flatten.filterMap id).dedup)).mem_iff,
    List.mem_dedup, List.mem_filterMap]
  exact ⟨some v, List.mem_flatten.mpr ⟨r, hr, hv⟩, rfl⟩

/-- C8 (amended): any cell outside {0, 1, missing} makes validation fail
with a schema error whose value list contains the offending value, and each
of the four service operations surfaces that error before any fitter
invocation; the standalone script, by design, applies no such check. -/
theorem claim_C8_schema_error (m : RMatrix) (c : Cache) (e : MirtEngine) (key : String)
    (r : List Cell) (v : ℚ) (hr : r ∈ m) (hv : some v ∈ r) (h0 : v ≠ 0) (h1 : v ≠ 1) :
    validate_and_clean_data m = .error (ValidationError.schemaError (uniqueSortedVals m)) ∧
    v ∈ uniqueSortedVals m ∧
    analyzeEndpoint c e key m =
      (.error (.validation (ValidationError.schemaError (uniqueSortedVals m))), c, 0) ∧
    (∀ iid, iccEndpoint c e key m iid =
      (.error (.validation (ValidationError.schemaError (uniqueSortedVals m))), c, 0)) ∧
    iifEndpoint c e key m =
      (.error (.validation (ValidationError.schemaError (uniqueSortedVals m))), c, 0) ∧
    testinfoEndpoint c e key m =
      (.error (.validation (ValidationError.schemaError (uniqueSortedVals m))), c, 0) := by
  have hb : allBinary m = false := allBinary_false_of_bad m r v hr hv h0 h1
  have hval : validate_and_clean_data m =
      .error (ValidationError.schemaError (uniqueSortedVals m)) := by
    simp [validate_and_clean_data, hb]
  refine ⟨hval, mem_uniqueSortedVals m r v hr hv, ?_, ?_, ?_, ?_⟩
  · simp [analyzeEndpoint, hval]
  · intro iid
    simp [iccEndpoint, hval]
  · simp [iifEndpoint, hval]
  · simp [testinfoEndpoint, hval]

/-- Counterexample to C8 as stated: the standalone analysis pipeline (an
externally callable operation of the repository) runs the fitter on a table
containing the non-binary value 2 instead of failing with a schema error. -/
theorem claim_C8_counterexample :
    perform_irt_analysis trivialEngine matBad10 = (.ok ([], ModelType.Simple), 1) ∧
    allBinary matBad10 = false := by
  constructor
  · have hf : matBad10.filter (validRow (ncols matBad10)) = matBad10 := by
      norm_num [matBad10, badRow3, List.replicate, validRow, rowSum, ncols,
        List.filterMap_cons]
    have hlen : matBad10.length = 10 := by simp [matBad10]
    simp only [perform_irt_analysis, hf, hlen]
    rfl
  · refine allBinary_false_of_bad matBad10 badRow3 2 ?_ ?_ (by norm_num) (by norm_num)
    · simp [matBad10, List.mem_replicate]
    · simp [badRow3]

/-- Witness for C8 at a table containing the value 2: validation fails with
the schema error and the reported values contain 2. -/
theorem claim_C8_witness :
    validate_and_clean_data matBad =
      .error (ValidationError.schemaError (uniqueSortedVals matBad)) ∧
    (2:ℚ) ∈ uniqueSortedVals matBad := by
  have h := claim_C8_schema_error matBad [] trivialEngine "k" [some 2, some 0] 2
    (by simp [matBad]) (by simp) (by norm_num) (by norm_num)
  exact ⟨h.1, h.2.1⟩

/-! ## C3 -/

/-- Supporting result for the service side: when the engine's
item-information computation throws for item `j` only, the `/iif` endpoint
of the plumber service still answers with status success, item `j`'s curve
is a grid-length (101) frame of missing values, and every other item's
curve is the normally computed one (here the handler's NA frame is the
`tryCatch` value and `bind_rows` consumes it). -/
theorem iif_handler_isolated_failure (c c' : Cache) (e : MirtEngine) (key : String)
    (m clean orig : RMatrix) (mo : FittedModel) (mt : ModelType) (n j : Nat)
    (hval : validate_and_clean_data m = .ok (clean, orig))
    (hfit : get_or_fit_model c e key clean = (.ok (mo, mt), c', n))
    (hfail : e.iifFails mo j = true)
    (hothers : ∀ i, i ≠ j → e.iifFails mo i = false) :
    iifEndpoint c e key m =
      (.ok { status := "success"
             iif_data := ((List.range (ncols clean)).map
               (fun i => iifItemRows e mo (i + 1))).flatten }, c', n) ∧
    iifItemRows e mo j = thetaGrid.map (fun θ =>
      { theta := roundTo 6 θ, iif := none, item_id := "item_" ++ toString j }) ∧
    (iifItemRows e mo j).length = 101 ∧
    (∀ i, i ≠ j → iifItemRows e mo i = thetaGrid.map (fun θ =>
      { theta := roundTo 6 θ, iif := some (roundTo 8 (e.iifVal mo i θ)),
        item_id := "item_" ++ toString i })) := by
  refine ⟨?_, ?_, ?_, ?_⟩
  · simp [iifEndpoint, hval, hfit]
  · simp [iifItemRows, hfail]
  · simp [iifItemRows, hfail, thetaGrid_length]
  · intro i hi
    simp [iifItemRows, hothers i hi]

lemma extreme_good3PL : extremeParams good3PLModel.items = false := by
  apply (extremeParams_eq_false _).mpr
  intro p hp
  simp only [good3PLModel, List.mem_cons, List.not_mem_nil, or_false] at hp
  rcases hp with rfl | rfl <;> norm_num

lemma getfit_iifFailEngine : get_or_fit_model [] iifFailEngine "k" mat10 =
    (.ok (good3PLModel, ModelType.Rich),
      [("k", (good3PLModel, ModelType.Rich))], 1) := by
  have hfit : fit_irt_model iifFailEngine mat10 = .ok (good3PLModel, ModelType.Rich) :=
    fit_accepts _ _ _ rfl rfl extreme_good3PL
  simp [get_or_fit_model, cacheFind, hfit]

/-- Instance of the service-side result at a concrete engine that throws
for item 1 only: item 1's curve has 101 rows, all with missing information
values. -/
theorem iif_handler_isolated_failure_instance :
    (iifItemRows iifFailEngine good3PLModel 1).length = 101 ∧
    iifItemRows iifFailEngine good3PLModel 1 = thetaGrid.map (fun θ =>
      { theta := roundTo 6 θ, iif := none, item_id := "item_" ++ toString 1 }) := by
  have hoth : ∀ i, i ≠ 1 → iifFailEngine.iifFails good3PLModel i = false :=
    fun i hi => decide_eq_false hi
  have h := iif_handler_isolated_failure [] [("k", (good3PLModel, ModelType.Rich))]
    iifFailEngine "k" mat10 mat10 mat10 good3PLModel ModelType.Rich 1 1
    validate_mat10_eval getfit_iifFailEngine rfl hoth
  exact ⟨h.2.2.1, h.2.1⟩

/-- C3: the claim describes the intended isolated-failure behavior (and the
service handler's actual behavior), but the cited standalone IIF loop loses
the missing-value curve its error handler builds: evaluated on a 2-item
model whose engine throws for item 1 only, the standalone `iif_list` holds
a single entry — item 2's normal curve — and no 101-point missing-value
curve for item 1. -/
theorem claim_C3_standalone_drops_failed_item :
    standalone_iif_list iifFailEngine good3PLModel 2 =
      [("item_2", standaloneIifEntry iifFailEngine good3PLModel 2)] ∧
    (standalone_iif_list iifFailEngine good3PLModel 2).length = 1 ∧
    (standaloneIifEntry iifFailEngine good3PLModel 2).info.length = 101 := by
  refine ⟨rfl, rfl, ?_⟩
  simp [standaloneIifEntry, thetaGrid_length]

end IRT

